import Mathlib

/-
  Verification of the logs-analysis reporting module
  (src/logs-analysis/logs_analysis.py).

  The module issues three SQL view definitions and three SELECT queries
  against a news database, and formats the fetched rows as text reports.
  This file gives a shallow embedding of

  * the relational data model (tables log, articles, authors),
  * the denotations of the five query strings
    (query_initialize_view_most_viewed_paths,
     query_initialize_view_most_viewed_articles,
     query_initialize_view_daily_error_rates,
     query_select_three_most_viewed_articles,
     query_select_most_viewed_authors,
     query_select_daily_error_rate_more_than_one_percent)
    as executable Lean functions over table contents,
  * the DDL and transaction semantics of the view-creation function,
  * the Python-level attribute/call semantics of connect and of the
    query operations, which is where the unparenthesised conn.cursor
    of the source lives, and
  * the report formatting layer.

  SQL ordering semantics: ORDER BY is embedded as a stable insertion
  sort, GROUP BY as grouping on first occurrence of each key followed
  by per-key aggregation.  Numeric SQL division is embedded into the
  rationals.
-/

namespace LogsAnalysis

/-- Calendar date, the result of date_trunc applied to a timestamp. -/
structure Date where
  year : Nat
  month : Nat
  day : Nat
deriving DecidableEq, Repr

/-- Timestamp as stored in the time column of the log table:
a calendar date plus the seconds elapsed within that day. -/
structure Timestamp where
  date : Date
  secOfDay : Nat
deriving DecidableEq, Repr

/-- Row of the log table: log(path, status, time). -/
structure LogEntry where
  path : String
  status : String
  time : Timestamp
deriving DecidableEq, Repr

/-- Row of the articles table: articles(slug, title, author). -/
structure Article where
  slug : String
  title : String
  author : Nat
deriving DecidableEq, Repr

/-- Row of the authors table: authors(id, name). -/
structure Author where
  id : Nat
  name : String
deriving DecidableEq, Repr

/-- Contents of the three base tables the queries read. -/
structure DBState where
  log : List LogEntry
  articles : List Article
  authors : List Author
deriving DecidableEq, Repr

/-- Lexicographic order on calendar dates, the order of the date
column used by ORDER BY date. -/
def dateLe (a b : Date) : Bool :=
  decide (a.year < b.year) ||
    (decide (a.year = b.year) &&
      (decide (a.month < b.month) ||
        (decide (a.month = b.month) && decide (a.day ≤ b.day))))

/-- Insert an element into a list, in front of the first element that
it may precede according to the comparator. -/
def insertLe (le : α → α → Bool) (x : α) : List α → List α
  | [] => [x]
  | y :: ys => if le x y then x :: y :: ys else y :: insertLe le x ys

/-- Stable insertion sort; the embedding of ORDER BY.  On ties it keeps
the order in which rows were produced, which makes the embedding of
every query deterministic. -/
def sortBy (le : α → α → Bool) : List α → List α
  | [] => []
  | x :: xs => insertLe le x (sortBy le xs)

/-- Keys of a list in order of first occurrence; the embedding of the
grouping step of GROUP BY. -/
def distinctFirst [DecidableEq α] (l : List α) : List α :=
  l.foldl (fun acc x => if x ∈ acc then acc else acc ++ [x]) []

/-- Cross join of two tables, the embedding of FROM t1, t2. -/
def crossJoin (xs : List α) (ys : List β) : List (α × β) :=
  xs.foldr (fun x acc => ys.map (fun y => (x, y)) ++ acc) []

/-- Embedding of GROUP BY key with aggregate sum over the second
component: one row per distinct key, in order of first occurrence. -/
def groupSum [DecidableEq κ] (l : List (κ × Nat)) : List (κ × Nat) :=
  (distinctFirst (l.map Prod.fst)).map
    (fun k => (k, ((l.filter (fun p => decide (p.1 = k))).map Prod.snd).sum))

/-- Denotation of query_initialize_view_most_viewed_paths:
select path, count(*) as pv from log group by path order by pv desc. -/
def most_viewed_paths (db : DBState) : List (String × Nat) :=
  sortBy (fun a b => decide (b.2 ≤ a.2))
    ((distinctFirst (db.log.map (fun e => e.path))).map
      (fun p => (p, db.log.countP (fun e => decide (e.path = p)))))

/-- Denotation of query_initialize_view_most_viewed_articles:
select title, author as author_id, pv from articles, most_viewed_paths
where concat(the literal /article/ prefix, articles.slug) =
most_viewed_paths.path order by pv desc.  A row is the triple
(title, author_id, pv). -/
def most_viewed_articles (db : DBState) : List (String × Nat × Nat) :=
  sortBy (fun a b => decide (b.2.2 ≤ a.2.2))
    (((crossJoin db.articles (most_viewed_paths db)).filter
        (fun p => decide ("/article/" ++ p.1.slug = p.2.1))).map
      (fun p => (p.1.title, p.1.author, p.2.2)))

/-- Count of the log rows of one calendar date whose status is exactly
the 404 NOT FOUND string: the SQL aggregate
count(case when status = the 404 string then 1 end) inside one group
of query_initialize_view_daily_error_rates. -/
def n404 (l : List LogEntry) (d : Date) : Nat :=
  l.countP (fun e =>
    decide (e.time.date = d) && decide (e.status = "404 NOT FOUND"))

/-- Count of all log rows of one calendar date: the SQL aggregate
count(*) inside one group of query_initialize_view_daily_error_rates. -/
def nday (l : List LogEntry) (d : Date) : Nat :=
  l.countP (fun e => decide (e.time.date = d))

/-- Daily error rate of one calendar date:
100.0 * count(case when status = the 404 string then 1 end) / count(*),
with SQL numeric division embedded into the rationals. -/
def error_rate (l : List LogEntry) (d : Date) : ℚ :=
  100 * (n404 l d : ℚ) / (nday l d : ℚ)

/-- Denotation of query_initialize_view_daily_error_rates:
select date_trunc(day, time) as date, 100.0 * count(case ...) / count(*)
as error_rate from log group by date order by date. -/
def daily_error_rates (db : DBState) : List (Date × ℚ) :=
  sortBy (fun a b => dateLe a.1 b.1)
    ((distinctFirst (db.log.map (fun e => e.time.date))).map
      (fun d => (d, error_rate db.log d)))

/-- Denotation of query_select_three_most_viewed_articles:
select title, pv from most_viewed_articles limit 3. -/
def query_select_three_most_viewed_articles (db : DBState) :
    List (String × Nat) :=
  ((most_viewed_articles db).map (fun r => (r.1, r.2.2))).take 3

/-- Join step of query_select_most_viewed_authors:
from authors, most_viewed_articles where authors.id =
most_viewed_articles.author_id, projected to (name, pv) pairs. -/
def authors_join (db : DBState) : List (String × Nat) :=
  ((crossJoin db.authors (most_viewed_articles db)).filter
      (fun p => decide (p.1.id = p.2.2.1))).map
    (fun p => (p.1.name, p.2.2.2))

/-- Denotation of query_select_most_viewed_authors:
select name, sum(pv) as authors_total_pv from authors,
most_viewed_articles where authors.id = most_viewed_articles.author_id
group by name order by authors_total_pv desc. -/
def query_select_most_viewed_authors (db : DBState) : List (String × Nat) :=
  sortBy (fun a b => decide (b.2 ≤ a.2)) (groupSum (authors_join db))

/-- Denotation of query_select_daily_error_rate_more_than_one_percent:
select * from daily_error_rates where error_rate > 1.0 order by date. -/
def query_select_daily_error_rate_more_than_one_percent (db : DBState) :
    List (Date × ℚ) :=
  sortBy (fun a b => dateLe a.1 b.1)
    ((daily_error_rates db).filter (fun r => decide ((1 : ℚ) < r.2)))

/-- Names of the relations present in the database schema: base tables
and views.  View contents are functions of the base tables (the view
denotations above), so the schema only has to record which view
definitions exist. -/
structure Schema where
  tables : List String
  views : List String
deriving DecidableEq, Repr

/-- Whether a relation name can be referenced by a view definition. -/
def schemaHasRel (s : Schema) (r : String) : Bool :=
  s.tables.contains r || s.views.contains r

/-- One create or replace view statement: the name of the view it
creates and the relations its body references. -/
structure DDLStmt where
  viewName : String
  refs : List String
deriving DecidableEq, Repr

/-- PostgreSQL semantics of create or replace view: fails when a
referenced relation is missing, otherwise installs the view, replacing
a prior definition of the same name instead of erroring. -/
def createOrReplaceView (st : DDLStmt) (s : Schema) : Except String Schema :=
  if st.refs.all (schemaHasRel s) then
    .ok { s with
          views := if s.views.contains st.viewName then s.views
                   else s.views ++ [st.viewName] }
  else
    .error ("relation referenced by " ++ st.viewName ++ " does not exist")

/-- State of one open transaction: the schema visible to other
sessions (committed) and the schema as modified by the statements
executed so far (pending). -/
structure TxState where
  committed : Schema
  pending : Schema
deriving DecidableEq, Repr

/-- Execute one DDL statement inside the transaction: only the pending
schema changes. -/
def txExec (st : DDLStmt) (tx : TxState) : Except String TxState :=
  match createOrReplaceView st tx.pending with
  | .ok p => .ok { committed := tx.committed, pending := p }
  | .error e => .error e

/-- Commit: the pending schema becomes visible. -/
def txCommit (tx : TxState) : TxState :=
  { committed := tx.pending, pending := tx.pending }

/-- The statement held in query_initialize_view_most_viewed_paths. -/
def ddl_most_viewed_paths : DDLStmt :=
  ⟨"most_viewed_paths", ["log"]⟩

/-- The statement held in query_initialize_view_most_viewed_articles. -/
def ddl_most_viewed_articles : DDLStmt :=
  ⟨"most_viewed_articles", ["articles", "most_viewed_paths"]⟩

/-- The statement held in query_initialize_view_daily_error_rates. -/
def ddl_daily_error_rates : DDLStmt :=
  ⟨"daily_error_rates", ["log"]⟩

/-- Transactional denotation of the view-creation sequence: execute
the three create or replace view statements in source order inside one
transaction and commit once at the end.  Returns the schema visible
after the run together with the error, if any: when a statement fails
the exception propagates, the transaction is never committed and the
connection drops it, so the visible schema is the committed one. -/
def run_create_views_transaction (s : Schema) : Schema × Option String :=
  let tx0 : TxState := ⟨s, s⟩
  match txExec ddl_most_viewed_paths tx0 with
  | .error e => (tx0.committed, some e)
  | .ok tx1 =>
    match txExec ddl_most_viewed_articles tx1 with
    | .error e => (tx1.committed, some e)
    | .ok tx2 =>
      match txExec ddl_daily_error_rates tx2 with
      | .error e => (tx2.committed, some e)
      | .ok tx3 => ((txCommit tx3).committed, none)

/-- A psycopg2 connection object, as produced by psycopg2.connect. -/
structure Connection where
  dbName : String
deriving DecidableEq, Repr

/-- The Python values this program manipulates: connection objects,
cursor objects, and the bound methods of both.  The source never calls
conn.cursor, so the value bound to its variable named cursor is the
cursorFactoryV bound method, not a cursorV object. -/
inductive PyVal where
  | connV (c : Connection)
  | cursorFactoryV (c : Connection)
  | cursorV (c : Connection)
  | cursorExecuteV (c : Connection)
  | cursorFetchallV (c : Connection)
  | connCommitV (c : Connection)
  | connCloseV (c : Connection)
deriving DecidableEq, Repr

/-- Python exceptions that can arise in this program. -/
inductive PyErr where
  | attributeError (typeName attrName : String)
  | typeError (msg : String)
  | psycopgError (msg : String)
deriving DecidableEq, Repr

/-- The Python type name of a value, as it appears in an
AttributeError message.  Bound methods of the C extension objects of
psycopg2 report the builtin function or method type. -/
def pyTypeName : PyVal → String
  | .connV _ => "psycopg2.extensions.connection"
  | .cursorV _ => "psycopg2.extensions.cursor"
  | _ => "builtin_function_or_method"

/-- Python attribute lookup restricted to the attributes this program
touches.  A connection exposes cursor, commit and close; a cursor
object exposes execute and fetchall; a bound method object exposes
none of these, so looking execute up on it raises AttributeError. -/
def getattr (v : PyVal) (attr : String) : Except PyErr PyVal :=
  match v, attr with
  | .connV c, "cursor" => .ok (.cursorFactoryV c)
  | .connV c, "commit" => .ok (.connCommitV c)
  | .connV c, "close" => .ok (.connCloseV c)
  | .cursorV c, "execute" => .ok (.cursorExecuteV c)
  | .cursorV c, "fetchall" => .ok (.cursorFetchallV c)
  | v, a => .error (.attributeError (pyTypeName v) a)

/-- Whether a Python value is a cursor object. -/
def isCursorObject : PyVal → Bool
  | .cursorV _ => true
  | _ => false

/-- State of one database session executing a read query: the table
contents, the result buffer of the last executed statement, and
whether the connection has been closed. -/
structure PgSession (ρ : Type) where
  db : DBState
  buffer : List ρ
  closed : Bool

/-- Calling cursor.execute with a select statement: only defined when
the callee really is the execute bound method of a cursor object; it
runs the query denotation against the session database and stores the
rows in the result buffer. -/
def callExecuteSelect (m : PyVal) (q : DBState → List ρ) (s : PgSession ρ) :
    Except PyErr (PgSession ρ) :=
  match m with
  | .cursorExecuteV _ => .ok { s with buffer := q s.db }
  | v => .error (.typeError (pyTypeName v ++ " object is not callable here"))

/-- Calling cursor.fetchall: returns every buffered result row. -/
def callFetchall (m : PyVal) (s : PgSession ρ) :
    Except PyErr (List ρ × PgSession ρ) :=
  match m with
  | .cursorFetchallV _ => .ok (s.buffer, s)
  | v => .error (.typeError (pyTypeName v ++ " object is not callable here"))

/-- Calling conn.close on a read-only session. -/
def callCloseSelect (m : PyVal) (s : PgSession ρ) :
    Except PyErr (PgSession ρ) :=
  match m with
  | .connCloseV _ => .ok { s with closed := true }
  | v => .error (.typeError (pyTypeName v ++ " object is not callable here"))

/-- Calling cursor.execute with a create or replace view statement
inside an open transaction. -/
def callExecuteDDL (m : PyVal) (st : DDLStmt) (tx : TxState) :
    Except PyErr TxState :=
  match m with
  | .cursorExecuteV _ =>
    match txExec st tx with
    | .ok tx2 => .ok tx2
    | .error e => .error (.psycopgError e)
  | v => .error (.typeError (pyTypeName v ++ " object is not callable here"))

/-- Calling conn.commit. -/
def callCommit (m : PyVal) (tx : TxState) : Except PyErr TxState :=
  match m with
  | .connCommitV _ => .ok (txCommit tx)
  | v => .error (.typeError (pyTypeName v ++ " object is not callable here"))

/-- Calling conn.close after a commit. -/
def callCloseTx (m : PyVal) (tx : TxState) : Except PyErr TxState :=
  match m with
  | .connCloseV _ => .ok tx
  | v => .error (.typeError (pyTypeName v ++ " object is not callable here"))

/-- The connect function of the source.  It builds the connection and
then evaluates the attribute access conn.cursor WITHOUT calling it, so
the second component of the returned pair is the bound cursor factory
method, not a cursor object. -/
def connect (db_name : String) : Except PyErr (Connection × PyVal) := do
  let conn : Connection := ⟨db_name⟩
  let cursor ← getattr (.connV conn) "cursor"
  return (conn, cursor)

/-- The select_three_most_viewed_articles function of the source:
connect, cursor.execute(query), result = cursor.fetchall(),
conn.close(), return result. -/
def select_three_most_viewed_articles (db : DBState) :
    Except PyErr (List (String × Nat)) := do
  let (conn, cursor) ← connect "news"
  let ex ← getattr cursor "execute"
  let s1 ← callExecuteSelect ex query_select_three_most_viewed_articles
    { db := db, buffer := [], closed := false }
  let fa ← getattr cursor "fetchall"
  let (result, s2) ← callFetchall fa s1
  let cl ← getattr (.connV conn) "close"
  let _ ← callCloseSelect cl s2
  return result

/-- The select_most_viewed_authors function of the source. -/
def select_most_viewed_authors (db : DBState) :
    Except PyErr (List (String × Nat)) := do
  let (conn, cursor) ← connect "news"
  let ex ← getattr cursor "execute"
  let s1 ← callExecuteSelect ex query_select_most_viewed_authors
    { db := db, buffer := [], closed := false }
  let fa ← getattr cursor "fetchall"
  let (result, s2) ← callFetchall fa s1
  let cl ← getattr (.connV conn) "close"
  let _ ← callCloseSelect cl s2
  return result

/-- The select_daily_error_rate_more_than_one_percent function of the
source. -/
def select_daily_error_rate_more_than_one_percent (db : DBState) :
    Except PyErr (List (Date × ℚ)) := do
  let (conn, cursor) ← connect "news"
  let ex ← getattr cursor "execute"
  let s1 ← callExecuteSelect ex
    query_select_daily_error_rate_more_than_one_percent
    { db := db, buffer := [], closed := false }
  let fa ← getattr cursor "fetchall"
  let (result, s2) ← callFetchall fa s1
  let cl ← getattr (.connV conn) "close"
  let _ ← callCloseSelect cl s2
  return result

/-- The view-creation function of the source (its name there starts
with the word initialize followed by underscore views): connect, three
cursor.execute calls with the create or replace view statements,
conn.commit(), conn.close(); on success it leaves the committed
schema, and an uncaught exception propagates as an error. -/
def create_views (s : Schema) : Except PyErr Schema := do
  let (conn, cursor) ← connect "news"
  let ex ← getattr cursor "execute"
  let tx0 : TxState := ⟨s, s⟩
  let tx1 ← callExecuteDDL ex ddl_most_viewed_paths tx0
  let tx2 ← callExecuteDDL ex ddl_most_viewed_articles tx1
  let tx3 ← callExecuteDDL ex ddl_daily_error_rates tx2
  let cm ← getattr (.connV conn) "commit"
  let tx4 ← callCommit cm tx3
  let cl ← getattr (.connV conn) "close"
  let tx5 ← callCloseTx cl tx4
  return tx5.committed

/-- English month name, as produced by strftime with the percent B
directive. -/
def monthName : Nat → String
  | 1 => "January"
  | 2 => "February"
  | 3 => "March"
  | 4 => "April"
  | 5 => "May"
  | 6 => "June"
  | 7 => "July"
  | 8 => "August"
  | 9 => "September"
  | 10 => "October"
  | 11 => "November"
  | 12 => "December"
  | _ => ""

/-- Zero-padded two-digit day, as produced by strftime with the
percent d directive. -/
def pad2 (n : Nat) : String :=
  if n < 10 then "0" ++ toString n else toString n

/-- The strftime format string used by the third report: full month
name, zero-padded day, comma, year. -/
def strftime_BdY (d : Date) : String :=
  monthName d.month ++ " " ++ pad2 d.day ++ ", " ++ toString d.year

/-- Banker rounding of a rational to one decimal place, returned as a
number of tenths: the behaviour of the Python round builtin with
second argument 1 on the exact value. -/
def round1 (q : ℚ) : Int :=
  let x : ℚ := 10 * q
  let n : Int := x.floor
  let f : ℚ := x - (n : ℚ)
  if f < 1 / 2 then n
  else if (1 : ℚ) / 2 < f then n + 1
  else if n % 2 = 0 then n else n + 1

/-- Decimal rendering of a number of tenths with exactly one digit
after the point, matching str applied to a one-decimal Decimal. -/
def show1dec (t : Int) : String :=
  toString (t / 10) ++ "." ++ toString (t % 10)

/-- The print_three_most_viewed_articles function of the source,
parametrised by the fetched result rows: the header line, one line per
article appended in loop order, then an empty line. -/
def print_three_most_viewed_articles (articles : List (String × Nat)) :
    List String :=
  (articles.foldl
    (fun acc article =>
      acc ++ ["\"" ++ article.1 ++ "\"" ++ " --- " ++ toString article.2
        ++ " views"])
    ["1. The most popular three articles of all time:"]) ++ [""]

/-- The print_most_viewed_authors function of the source, parametrised
by the fetched result rows. -/
def print_most_viewed_authors (authors : List (String × Nat)) :
    List String :=
  (authors.foldl
    (fun acc author =>
      acc ++ [author.1 ++ " --- " ++ toString author.2 ++ " views"])
    ["2. The most popular article authors of all time:"]) ++ [""]

/-- The print_daily_error_rate_more_than_one_percent function of the
source, parametrised by the fetched result rows. -/
def print_daily_error_rate_more_than_one_percent (rates : List (Date × ℚ)) :
    List String :=
  (rates.foldl
    (fun acc rate =>
      acc ++ [strftime_BdY rate.1 ++ " --- " ++ show1dec (round1 rate.2)
        ++ "% errors"])
    ["3. The dates when more than 1% of requests lead to errors:"]) ++ [""]

/-- Concrete calendar date used by the example databases. -/
def july1 : Date := ⟨2016, 7, 1⟩

/-- Two articles with one page view each: a tie in view counts. -/
def exDB_C1 : DBState :=
  { log := [⟨"/article/a", "200 OK", ⟨july1, 0⟩⟩,
            ⟨"/article/b", "200 OK", ⟨july1, 60⟩⟩],
    articles := [⟨"a", "A", 1⟩, ⟨"b", "B", 1⟩],
    authors := [⟨1, "X"⟩] }

/-- The example log of the specification: on one date, five rows with
status 200 OK and one row with status 404 NOT FOUND, all for the same
article path. -/
def exDB_C2 : DBState :=
  { log := [⟨"/article/a", "200 OK", ⟨july1, 0⟩⟩,
            ⟨"/article/a", "200 OK", ⟨july1, 1⟩⟩,
            ⟨"/article/a", "200 OK", ⟨july1, 2⟩⟩,
            ⟨"/article/a", "200 OK", ⟨july1, 3⟩⟩,
            ⟨"/article/a", "200 OK", ⟨july1, 4⟩⟩,
            ⟨"/article/a", "404 NOT FOUND", ⟨july1, 5⟩⟩],
    articles := [],
    authors := [] }

/-- A log whose single day has every request failing, so its error
rate of one hundred percent exceeds one percent. -/
def exDB_C4 : DBState :=
  { log := [⟨"/a", "404 NOT FOUND", ⟨july1, 0⟩⟩],
    articles := [],
    authors := [] }

/-- Two distinct authors that share the name X, with two page views on
the article of the first and three on the article of the second. -/
def exDB_C5 : DBState :=
  { log := [⟨"/article/a", "200 OK", ⟨july1, 0⟩⟩,
            ⟨"/article/a", "200 OK", ⟨july1, 1⟩⟩,
            ⟨"/article/b", "200 OK", ⟨july1, 2⟩⟩,
            ⟨"/article/b", "200 OK", ⟨july1, 3⟩⟩,
            ⟨"/article/b", "200 OK", ⟨july1, 4⟩⟩],
    articles := [⟨"a", "A", 1⟩, ⟨"b", "B", 2⟩],
    authors := [⟨1, "X"⟩, ⟨2, "X"⟩] }

/-- A schema holding only the log base table, so that creating the
second view, which references the articles table, fails. -/
def schemaLogOnly : Schema := ⟨["log"], []⟩

/-- One log row with status 404 NOT FOUND. -/
def log404 : List LogEntry := [⟨"/a", "404 NOT FOUND", ⟨july1, 0⟩⟩]

/-- One log row with a status that is neither 200 OK nor the exact
404 NOT FOUND string. -/
def entry500 : LogEntry := ⟨"/a", "500 INTERNAL SERVER ERROR", ⟨july1, 1⟩⟩

theorem dateLe_total (a b : Date) : dateLe a b = true ∨ dateLe b a = true := by
  simp only [dateLe, Bool.or_eq_true, Bool.and_eq_true, decide_eq_true_eq]
  omega

theorem dateLe_trans {a b c : Date} (hab : dateLe a b = true)
    (hbc : dateLe b c = true) : dateLe a c = true := by
  simp only [dateLe, Bool.or_eq_true, Bool.and_eq_true, decide_eq_true_eq] at *
  omega

theorem mem_insertLe {le : α → α → Bool} {x a : α} :
    ∀ {l : List α}, a ∈ insertLe le x l ↔ a = x ∨ a ∈ l := by
  intro l
  induction l with
  | nil => simp [insertLe]
  | cons y ys ih =>
    simp only [insertLe]
    by_cases h : le x y = true
    · simp [h]
    · simp only [h, Bool.false_eq_true, if_false, List.mem_cons, ih]
      tauto

theorem mem_sortBy {le : α → α → Bool} {a : α} :
    ∀ {l : List α}, a ∈ sortBy le l ↔ a ∈ l := by
  intro l
  induction l with
  | nil => simp [sortBy]
  | cons x xs ih => simp [sortBy, mem_insertLe, ih]

theorem length_insertLe (le : α → α → Bool) (x : α) :
    ∀ (l : List α), (insertLe le x l).length = l.length + 1 := by
  intro l
  induction l with
  | nil => simp [insertLe]
  | cons y ys ih =>
    simp only [insertLe]
    by_cases h : le x y = true
    · simp [h]
    · simp [h, ih]

theorem length_sortBy (le : α → α → Bool) :
    ∀ (l : List α), (sortBy le l).length = l.length := by
  intro l
  induction l with
  | nil => rfl
  | cons x xs ih => simp [sortBy, length_insertLe, ih]

theorem pairwise_insertLe {le : α → α → Bool}
    (htot : ∀ a b, le a b = true ∨ le b a = true)
    (htrans : ∀ a b c, le a b = true → le b c = true → le a c = true)
    (x : α) :
    ∀ {l : List α}, l.Pairwise (fun a b => le a b = true) →
      (insertLe le x l).Pairwise (fun a b => le a b = true) := by
  intro l
  induction l with
  | nil => intro _; simp [insertLe]
  | cons y ys ih =>
    intro hl
    rcases List.pairwise_cons.mp hl with ⟨hy, hys⟩
    simp only [insertLe]
    by_cases h : le x y = true
    · simp only [h, if_true]
      refine List.pairwise_cons.mpr ⟨?_, hl⟩
      intro b hb
      rcases List.mem_cons.mp hb with rfl | hb
      · exact h
      · exact htrans x y b h (hy b hb)
    · simp only [h, Bool.false_eq_true, if_false]
      refine List.pairwise_cons.mpr ⟨?_, ih hys⟩
      intro b hb
      rcases mem_insertLe.mp hb with hbx | hb
      · rw [hbx]
        rcases htot x y with hxy | hyx
        · exact absurd hxy h
        · exact hyx
      · exact hy b hb

theorem sortBy_sorted {le : α → α → Bool}
    (htot : ∀ a b, le a b = true ∨ le b a = true)
    (htrans : ∀ a b c, le a b = true → le b c = true → le a c = true) :
    ∀ (l : List α), (sortBy le l).Pairwise (fun a b => le a b = true) := by
  intro l
  induction l with
  | nil => simp [sortBy]
  | cons x xs ih => exact pairwise_insertLe htot htrans x ih

theorem sortBy_eq_of_sorted {le : α → α → Bool} :
    ∀ {l : List α}, l.Pairwise (fun a b => le a b = true) → sortBy le l = l := by
  intro l
  induction l with
  | nil => intro _; rfl
  | cons x xs ih =>
    intro hl
    rcases List.pairwise_cons.mp hl with ⟨hx, hxs⟩
    simp only [sortBy, ih hxs]
    cases xs with
    | nil => rfl
    | cons y ys =>
      simp [insertLe, hx y (List.mem_cons_self y ys)]

theorem mem_foldl_distinct [DecidableEq α] {a : α} :
    ∀ (l acc : List α),
      (a ∈ l.foldl (fun acc x => if x ∈ acc then acc else acc ++ [x]) acc ↔
        a ∈ acc ∨ a ∈ l) := by
  intro l
  induction l with
  | nil => intro acc; simp
  | cons y ys ih =>
    intro acc
    simp only [List.foldl_cons]
    rw [ih]
    by_cases h : y ∈ acc
    · simp only [h, if_true, List.mem_cons]
      constructor
      · tauto
      · rintro (ha | rfl | ha) <;> tauto
    · simp only [h, Bool.false_eq_true, if_false, List.mem_append,
        List.mem_singleton, List.mem_cons]
      tauto

theorem mem_distinctFirst [DecidableEq α] {a : α} {l : List α} :
    a ∈ distinctFirst l ↔ a ∈ l := by
  rw [distinctFirst, mem_foldl_distinct]
  simp

/-- Membership characterisation of the daily_error_rates view: a row
belongs to it exactly when its date occurs in the log and its second
component is the error rate of that date. -/
theorem mem_daily_error_rates {db : DBState} {row : Date × ℚ} :
    row ∈ daily_error_rates db ↔
      row.1 ∈ distinctFirst (db.log.map (fun e => e.time.date)) ∧
        row.2 = error_rate db.log row.1 := by
  unfold daily_error_rates
  rw [mem_sortBy, List.mem_map]
  constructor
  · rintro ⟨d, hd, heq⟩
    constructor
    · rw [← heq]; exact hd
    · rw [← heq]
  · rintro ⟨h1, h2⟩
    refine ⟨row.1, h1, ?_⟩
    cases row with
    | mk a b => simp only at h2 ⊢; rw [h2]

/-- Evaluation of the daily_error_rates view on the example log of the
specification: five 200 OK rows and one 404 NOT FOUND row on one date
give the single row with rate 100 times 1 over 6. -/
theorem daily_eval_C2 :
    daily_error_rates exDB_C2 = [(july1, 100 * (1 : ℚ) / 6)] := by
  have h1 : distinctFirst (exDB_C2.log.map (fun e => e.time.date)) = [july1] := by
    decide
  have h404 : n404 exDB_C2.log july1 = 1 := by decide
  have hday : nday exDB_C2.log july1 = 6 := by decide
  rw [daily_error_rates, h1]
  simp only [List.map_cons, List.map_nil, sortBy, insertLe]
  rw [error_rate, h404, hday]
  norm_num


/-- Executing a statement inside a transaction never changes the
committed schema. -/
theorem txExec_committed {st : DDLStmt} {tx tx2 : TxState}
    (h : txExec st tx = .ok tx2) : tx2.committed = tx.committed := by
  unfold txExec at h
  cases hc : createOrReplaceView st tx.pending with
  | ok p =>
    rw [hc] at h
    injection h with h2
    rw [← h2]
  | error e =>
    rw [hc] at h
    exact absurd h (by simp)

/-- A loop that appends one line per row prints exactly the map of the
formatting function over the rows, after the initial lines. -/
theorem foldl_append_lines {α : Type} (f : α → String) :
    ∀ (l : List α) (init : List String),
      l.foldl (fun acc a => acc ++ [f a]) init = init ++ l.map f := by
  intro l
  induction l with
  | nil => intro init; simp
  | cons x xs ih =>
    intro init
    simp only [List.foldl_cons, List.map_cons]
    rw [ih]
    simp

/-- On any date, the 404 rows of that date are among all rows of that
date. -/
theorem n404_le_nday (l : List LogEntry) (d : Date) : n404 l d ≤ nday l d := by
  unfold n404 nday
  apply List.countP_mono_left
  intro e _ h
  simp only [Bool.and_eq_true] at h
  exact h.1

/-- Evaluation of highErrorDays on a log whose only day has every
request failing: its one view row, with rate one hundred, is kept. -/
theorem highErrorDays_eval_C4 :
    query_select_daily_error_rate_more_than_one_percent exDB_C4 =
      [(july1, (100 : ℚ))] := by
  have hv : daily_error_rates exDB_C4 = [(july1, (100 : ℚ))] := by
    have h1 : distinctFirst (exDB_C4.log.map (fun e => e.time.date)) = [july1] := by
      decide
    have h404 : n404 exDB_C4.log july1 = 1 := by decide
    have hday : nday exDB_C4.log july1 = 1 := by decide
    rw [daily_error_rates, h1]
    simp only [List.map_cons, List.map_nil, sortBy, insertLe]
    rw [error_rate, h404, hday]
    norm_num
  rw [query_select_daily_error_rate_more_than_one_percent, hv]
  have hd : decide ((1 : ℚ) < (100 : ℚ)) = true := decide_eq_true (by norm_num)
  simp [List.filter, hd, sortBy, insertLe]

/-- C1 counterexample: on a database where two articles tie at one
page view each, topArticles returns the two rows with equal
view_count, so its output is NOT strictly sorted by view_count
descending. -/
theorem topArticles_not_strictly_sorted_cex :
    ¬ List.Pairwise (fun a b => b.2 < a.2)
      (query_select_three_most_viewed_articles exDB_C1) := by
  decide

/-- C1 (amended): for every database state, topArticles returns at
most 3 rows, sorted by view_count in descending order with ties
allowed (non-strictly). -/
theorem topArticles_le_three_sorted_desc (db : DBState) :
    (query_select_three_most_viewed_articles db).length ≤ 3 ∧
    List.Pairwise (fun a b => b.2 ≤ a.2)
      (query_select_three_most_viewed_articles db) := by
  constructor
  · simp only [query_select_three_most_viewed_articles, List.length_take]
    omega
  · have htot : ∀ a b : String × Nat × Nat,
        decide (b.2.2 ≤ a.2.2) = true ∨ decide (a.2.2 ≤ b.2.2) = true := by
      intro a b
      rcases le_total b.2.2 a.2.2 with h | h <;> simp [h]
    have htrans : ∀ a b c : String × Nat × Nat,
        decide (b.2.2 ≤ a.2.2) = true → decide (c.2.2 ≤ b.2.2) = true →
          decide (c.2.2 ≤ a.2.2) = true := by
      intro a b c hab hbc
      simp only [decide_eq_true_eq] at *
      omega
    have hs := sortBy_sorted htot htrans
      (((crossJoin db.articles (most_viewed_paths db)).filter
          (fun p => decide ("/article/" ++ p.1.slug = p.2.1))).map
        (fun p => (p.1.title, p.1.author, p.2.2)))
    have hs2 : List.Pairwise (fun a b : String × Nat × Nat => b.2.2 ≤ a.2.2)
        (most_viewed_articles db) := by
      rw [most_viewed_articles]
      exact hs.imp (fun h => of_decide_eq_true h)
    have hm : List.Pairwise (fun a b : String × Nat => b.2 ≤ a.2)
        ((most_viewed_articles db).map (fun r => (r.1, r.2.2))) :=
      List.pairwise_map.mpr hs2
    simp only [query_select_three_most_viewed_articles]
    exact List.Pairwise.sublist (List.take_sublist 3 _) hm

/-- C2: the DailyErrorRates view groups the log rows by calendar date
(the timestamp truncated to its day); the dates of its rows are
exactly the dates occurring in the log, and each row carries
error_rate = 100 * (count of rows of that date with status
404 NOT FOUND) / (count of all rows of that date); in particular, on
the example log with five 200 OK rows and one 404 NOT FOUND row on a
single date, the rate of that date is 100 * 1 / 6. -/
theorem daily_error_rates_spec :
    (∀ db : DBState, ∀ row ∈ daily_error_rates db,
        row.2 = 100 * (n404 db.log row.1 : ℚ) / (nday db.log row.1 : ℚ)) ∧
    (∀ db : DBState, ∀ d : Date,
        (∃ row ∈ daily_error_rates db, row.1 = d) ↔ ∃ e ∈ db.log, e.time.date = d) ∧
    daily_error_rates exDB_C2 = [(july1, 100 * (1 : ℚ) / 6)] := by
  refine ⟨?_, ?_, ?_⟩
  · intro db row hrow
    have h := (mem_daily_error_rates.mp hrow).2
    rw [h, error_rate]
  · intro db d
    constructor
    · rintro ⟨row, hrow, hd⟩
      have h1 := (mem_daily_error_rates.mp hrow).1
      rw [hd] at h1
      rcases List.mem_map.mp (mem_distinctFirst.mp h1) with ⟨e, he, hde⟩
      exact ⟨e, he, hde⟩
    · rintro ⟨e, he, hde⟩
      refine ⟨(d, error_rate db.log d), ?_, rfl⟩
      apply mem_daily_error_rates.mpr
      exact ⟨mem_distinctFirst.mpr (List.mem_map.mpr ⟨e, he, hde⟩), rfl⟩
  · exact daily_eval_C2

/-- C2 witness: the first conjunct of the C2 theorem applied to the
example database and its concrete view row. -/
theorem daily_error_rates_spec_witness :
    ((july1, 100 * (1 : ℚ) / 6) : Date × ℚ).2 =
      100 * (n404 exDB_C2.log ((july1, 100 * (1 : ℚ) / 6) : Date × ℚ).1 : ℚ) /
        (nday exDB_C2.log ((july1, 100 * (1 : ℚ) / 6) : Date × ℚ).1 : ℚ) :=
  daily_error_rates_spec.1 exDB_C2 (july1, 100 * (1 : ℚ) / 6)
    (by rw [daily_error_rates_spec.2.2]; exact List.mem_singleton.mpr rfl)

/-- C3 witness of the bug: each of the three query operations stops
with AttributeError at its cursor.execute call, because the value
bound to cursor is the bound cursor factory method of the connection
and not a cursor object; no query is executed, no rows are fetched. -/
theorem selects_raise_attribute_error (db : DBState) :
    select_three_most_viewed_articles db =
      .error (.attributeError "builtin_function_or_method" "execute") ∧
    select_most_viewed_authors db =
      .error (.attributeError "builtin_function_or_method" "execute") ∧
    select_daily_error_rate_more_than_one_percent db =
      .error (.attributeError "builtin_function_or_method" "execute") :=
  ⟨rfl, rfl, rfl⟩

/-- C4: highErrorDays returns exactly the rows of the
daily_error_rates view whose error_rate is strictly greater than 1.0,
every returned row has error_rate above one, and the returned rows are
sorted by date ascending. -/
theorem highErrorDays_spec :
    (∀ db : DBState,
        query_select_daily_error_rate_more_than_one_percent db =
          (daily_error_rates db).filter (fun r => decide ((1 : ℚ) < r.2))) ∧
    (∀ db : DBState,
        ∀ row ∈ query_select_daily_error_rate_more_than_one_percent db,
          (1 : ℚ) < row.2) ∧
    (∀ db : DBState,
        List.Pairwise (fun a b => dateLe a.1 b.1 = true)
          (query_select_daily_error_rate_more_than_one_percent db)) := by
  have htot : ∀ a b : Date × ℚ,
      dateLe a.1 b.1 = true ∨ dateLe b.1 a.1 = true :=
    fun a b => dateLe_total a.1 b.1
  have htrans : ∀ a b c : Date × ℚ, dateLe a.1 b.1 = true →
      dateLe b.1 c.1 = true → dateLe a.1 c.1 = true :=
    fun _ _ _ hab hbc => dateLe_trans hab hbc
  have hsorted : ∀ db : DBState,
      (daily_error_rates db).Pairwise (fun a b => dateLe a.1 b.1 = true) := by
    intro db
    rw [daily_error_rates]
    exact sortBy_sorted htot htrans _
  have hfiltered : ∀ db : DBState,
      query_select_daily_error_rate_more_than_one_percent db =
        (daily_error_rates db).filter (fun r => decide ((1 : ℚ) < r.2)) := by
    intro db
    rw [query_select_daily_error_rate_more_than_one_percent]
    exact sortBy_eq_of_sorted (List.Pairwise.filter _ (hsorted db))
  refine ⟨hfiltered, ?_, ?_⟩
  · intro db row hrow
    rw [hfiltered db] at hrow
    exact of_decide_eq_true (List.mem_filter.mp hrow).2
  · intro db
    rw [hfiltered db]
    exact List.Pairwise.filter _ (hsorted db)

/-- C4 witness: the second conjunct of the C4 theorem applied to a
concrete database and the concrete row of its result. -/
theorem highErrorDays_spec_witness :
    (1 : ℚ) < ((july1, (100 : ℚ)) : Date × ℚ).2 :=
  highErrorDays_spec.2.1 exDB_C4 (july1, 100)
    (by rw [highErrorDays_eval_C4]; exact List.mem_singleton.mpr rfl)


/-- C5 counterexample: with two distinct authors that share one name,
topAuthors reports one combined row for the name, so the reported
total_views does NOT equal the per-author sum of view counts over that
author rows of MostViewedArticles: author 1 has sum 2 but the row for
the shared name reports 5. -/
theorem topAuthors_per_author_cex :
    ¬ (∀ a ∈ exDB_C5.authors, ∀ row ∈ query_select_most_viewed_authors exDB_C5,
        row.1 = a.name → row.2 = (((most_viewed_articles exDB_C5).filter
          (fun m => decide (m.2.1 = a.id))).map (fun m => m.2.2)).sum) := by
  decide

/-- C5 (amended): topAuthors groups by author NAME: the total_views of
each result row equals the sum of view_count over the join rows
whose author name equals the name of that row (which coincides with
the per-author sum only when no two authors share a name); the rows
are ordered by total_views descending and the result is unlimited, one
row per distinct author name of the join. -/
theorem topAuthors_sum_by_name :
    (∀ db : DBState, ∀ row ∈ query_select_most_viewed_authors db,
        row.2 = (((authors_join db).filter
          (fun p => decide (p.1 = row.1))).map Prod.snd).sum) ∧
    (∀ db : DBState, List.Pairwise (fun a b => b.2 ≤ a.2)
        (query_select_most_viewed_authors db)) ∧
    (∀ db : DBState, (query_select_most_viewed_authors db).length =
        (distinctFirst ((authors_join db).map Prod.fst)).length) := by
  refine ⟨?_, ?_, ?_⟩
  · intro db row hrow
    rw [query_select_most_viewed_authors, mem_sortBy, groupSum] at hrow
    rcases List.mem_map.mp hrow with ⟨k, hk, heq⟩
    subst heq
    rfl
  · intro db
    have htot : ∀ a b : String × Nat,
        decide (b.2 ≤ a.2) = true ∨ decide (a.2 ≤ b.2) = true := by
      intro a b
      rcases le_total b.2 a.2 with h | h <;> simp [h]
    have htrans : ∀ a b c : String × Nat,
        decide (b.2 ≤ a.2) = true → decide (c.2 ≤ b.2) = true →
          decide (c.2 ≤ a.2) = true := by
      intro a b c hab hbc
      simp only [decide_eq_true_eq] at *
      omega
    rw [query_select_most_viewed_authors]
    exact (sortBy_sorted htot htrans _).imp (fun h => of_decide_eq_true h)
  · intro db
    rw [query_select_most_viewed_authors, length_sortBy, groupSum,
      List.length_map]

/-- C5 witness: the first conjunct of the amended C5 theorem applied
to the two-authors-one-name database and its concrete result row. -/
theorem topAuthors_sum_by_name_witness :
    (("X", 5) : String × Nat).2 =
      (((authors_join exDB_C5).filter
        (fun p => decide (p.1 = (("X", 5) : String × Nat).1))).map Prod.snd).sum :=
  topAuthors_sum_by_name.1 exDB_C5 ("X", 5) (by decide)

/-- C6 witness of the bug: the view-creation function raises
AttributeError at its first cursor.execute call on every run, before
any create or replace view statement reaches the database, so no run
ever creates or replaces a view. -/
theorem create_views_raises_attribute_error (s : Schema) :
    create_views s =
      .error (.attributeError "builtin_function_or_method" "execute") :=
  rfl

/-- C7: view creation is all-or-nothing: the three create or replace
view statements take effect only at the single final commit, so if any
of them fails the visible schema is unchanged and no partial set of
view definitions persists. -/
theorem create_views_transaction_all_or_nothing (s : Schema)
    (h : (run_create_views_transaction s).2.isSome = true) :
    (run_create_views_transaction s).1 = s := by
  simp only [run_create_views_transaction] at h ⊢
  cases h1 : txExec ddl_most_viewed_paths ⟨s, s⟩ with
  | error e => simp only [h1]
  | ok tx1 =>
    cases h2 : txExec ddl_most_viewed_articles tx1 with
    | error e =>
      simp only [h1, h2]
      exact txExec_committed h1
    | ok tx2 =>
      cases h3 : txExec ddl_daily_error_rates tx2 with
      | error e =>
        simp only [h1, h2, h3]
        rw [txExec_committed h2, txExec_committed h1]
      | ok tx3 =>
        simp [h1, h2, h3] at h

/-- C7 witness: on a schema that lacks the articles table the second
statement fails, and the visible schema is unchanged. -/
theorem create_views_transaction_all_or_nothing_witness :
    (run_create_views_transaction schemaLogOnly).2.isSome = true ∧
    (run_create_views_transaction schemaLogOnly).1 = schemaLogOnly :=
  ⟨by decide, create_views_transaction_all_or_nothing schemaLogOnly (by decide)⟩

/-- C8: each report consists of its numbered header line, then one
line per result row (article rows as the quoted title, three dashes,
the view count and the word views; author rows as the name, three
dashes, the view count and the word views; error-rate rows as the full
month name, zero-padded day, comma, year, three dashes, the rate
rounded to one decimal and a percent-errors suffix), followed by one
empty line. -/
theorem print_reports_format :
    (∀ articles : List (String × Nat),
        print_three_most_viewed_articles articles =
          "1. The most popular three articles of all time:" ::
            (articles.map (fun article =>
              "\"" ++ article.1 ++ "\"" ++ " --- " ++ toString article.2
                ++ " views") ++ [""])) ∧
    (∀ authors : List (String × Nat),
        print_most_viewed_authors authors =
          "2. The most popular article authors of all time:" ::
            (authors.map (fun author =>
              author.1 ++ " --- " ++ toString author.2 ++ " views") ++ [""])) ∧
    (∀ rates : List (Date × ℚ),
        print_daily_error_rate_more_than_one_percent rates =
          "3. The dates when more than 1% of requests lead to errors:" ::
            (rates.map (fun rate =>
              strftime_BdY rate.1 ++ " --- " ++ show1dec (round1 rate.2)
                ++ "% errors") ++ [""])) := by
  refine ⟨?_, ?_, ?_⟩ <;> intro l <;>
    simp [print_three_most_viewed_articles, print_most_viewed_authors,
      print_daily_error_rate_more_than_one_percent, foldl_append_lines]

/-- C9: connect returns the connection paired with the bound cursor
factory method of the connection, obtained by attribute access without
a call; that value is not a cursor object, and looking the execute
attribute up on it, as every query operation then does, raises
AttributeError. -/
theorem connect_returns_cursor_method (db_name : String) :
    connect db_name = .ok (⟨db_name⟩, PyVal.cursorFactoryV ⟨db_name⟩) ∧
    isCursorObject (PyVal.cursorFactoryV ⟨db_name⟩) = false ∧
    getattr (PyVal.cursorFactoryV ⟨db_name⟩) "execute" =
      .error (.attributeError "builtin_function_or_method" "execute") :=
  ⟨rfl, rfl, rfl⟩

/-- C10: only rows whose status is exactly 404 NOT FOUND are counted
in the numerator of a day error rate, while every row of the day is
counted in the denominator: a row with any other status leaves the
numerator unchanged, grows the denominator by one, and therefore
strictly lowers the rate of a day that has at least one 404 row. -/
theorem daily_error_rates_counts_only_404 (l : List LogEntry) (e : LogEntry)
    (hstatus : e.status ≠ "404 NOT FOUND") :
    n404 (e :: l) e.time.date = n404 l e.time.date ∧
    nday (e :: l) e.time.date = nday l e.time.date + 1 ∧
    (0 < n404 l e.time.date →
      error_rate (e :: l) e.time.date < error_rate l e.time.date) := by
  have h404 : n404 (e :: l) e.time.date = n404 l e.time.date := by
    simp [n404, List.countP_cons, hstatus]
  have hday : nday (e :: l) e.time.date = nday l e.time.date + 1 := by
    simp [nday, List.countP_cons]
  refine ⟨h404, hday, ?_⟩
  intro hpos
  have hle := n404_le_nday l e.time.date
  have hn : 0 < nday l e.time.date := lt_of_lt_of_le hpos hle
  rw [error_rate, error_rate, h404, hday]
  have ha : (0 : ℚ) < 100 * (n404 l e.time.date : ℚ) := by
    have hq : (0 : ℚ) < (n404 l e.time.date : ℚ) := by exact_mod_cast hpos
    linarith
  have hnq : (0 : ℚ) < (nday l e.time.date : ℚ) := by exact_mod_cast hn
  have hlt : (nday l e.time.date : ℚ) < ((nday l e.time.date + 1 : Nat) : ℚ) := by
    push_cast
    linarith
  exact div_lt_div_of_pos_left ha hnq hlt

/-- C10 witness: the C10 theorem applied to a log with one 404 row
when a row with status 500 arrives on the same day. -/
theorem daily_error_rates_counts_only_404_witness :
    error_rate (entry500 :: log404) entry500.time.date <
      error_rate log404 entry500.time.date :=
  (daily_error_rates_counts_only_404 log404 entry500 (by decide)).2.2 (by decide)

end LogsAnalysis
